import Mathlib

/-!
Verification of the agent repository (`locationSearch.js`, `photon.js`).

The JavaScript sources are shallowly embedded: JS strings become `String`
(manipulated through their `List Char` data), JS numbers in receipt data
become `ℚ`, dynamically-typed JSON fields become `Option`-typed record
fields or a small `JsVal` type, exceptions become `Except`, and the
external collaborators (web-search provider, generative model, JSON
parsing of model text, message transport) become explicit parameters.
Sends through the message transport are collected as an ordered list of
(recipient, text) pairs.
-/

namespace AgentRepo

/-! ## String primitives shared by both source files -/

/-- Tests whether the first list is a leading segment of the second
(the semantics of JS `String.prototype.startsWith` on exploded strings). -/
def hasPfx : List Char → List Char → Bool
  | [], _ => true
  | _ :: _, [] => false
  | p :: ps, c :: cs => p == c && hasPfx ps cs

/-- Tests whether `pat` occurs as a contiguous substring of `text`
(the semantics of JS `String.prototype.includes` on exploded strings). -/
def containsSub : List Char → List Char → Bool
  | [], pat => hasPfx pat []
  | c :: rest, pat => hasPfx pat (c :: rest) || containsSub rest pat

/-- JS `String.prototype.toLowerCase`, restricted to the per-character
lowering that the keyword matching in this repository exercises. -/
def lowerChars (s : List Char) : List Char := s.map Char.toLower

/-- JS truthiness of a possibly-absent string value: `undefined` and the
empty string are falsy, every other string is truthy. -/
def jsTruthyStr : Option String → Bool
  | none => false
  | some s => !(s == "")

/-- JS `a || b` on possibly-absent string values: returns `a` when `a` is
truthy, otherwise `b`. -/
def jsOrStr (a b : Option String) : Option String :=
  if jsTruthyStr a then a else b

namespace LocationSearch

/-! ## Data model of `locationSearch.js` -/

/-- One raw result from the web-search provider (`title`, optional
`snippet`/`description`, `url`), as consumed by `locationSearch.js`. -/
structure SearchResult where
  title : String
  snippet : Option String
  description : Option String
  url : String
deriving DecidableEq

/-- The fixed affordable-keyword list of `calculateAffordabilityScore`. -/
def affordableKeywords : List String :=
  ["cheap", "budget", "affordable", "discount", "deal", "save",
   "inexpensive", "low price", "bargain", "value", "economical",
   "free", "sale", "$", "under", "less than"]

/-- The fixed expensive-keyword list of `calculateAffordabilityScore`. -/
def expensiveKeywords : List String :=
  ["luxury", "premium", "expensive", "upscale", "high-end",
   "exclusive", "gourmet", "fine dining"]

/-- The text scanned for keywords: the template string
`title SPACE (snippet or empty) SPACE (description or empty)`,
lower-cased — exactly the `text` local of `calculateAffordabilityScore`. -/
def affordabilityText (r : SearchResult) : List Char :=
  lowerChars (r.title ++ " " ++ r.snippet.getD "" ++ " " ++ r.description.getD "").data

/-- Embedding of `calculateAffordabilityScore` (locationSearch.js:219-252):
fold over the affordable keywords adding 2 per present keyword, then over
the expensive keywords subtracting 3 per present keyword. -/
def calculateAffordabilityScore (r : SearchResult) : Int :=
  let text := affordabilityText r
  let afterAfford := affordableKeywords.foldl
    (fun score kw => if containsSub text kw.data then score + 2 else score) 0
  expensiveKeywords.foldl
    (fun score kw => if containsSub text kw.data then score - 3 else score) afterAfford

/-- The claim's own reading of the scanned text, for comparison with the
code: the plain concatenation of title, snippet and description, with no
separator, lower-cased. -/
def claimAffordabilityText (r : SearchResult) : List Char :=
  lowerChars (r.title ++ r.snippet.getD "" ++ r.description.getD "").data

/-- The score the claim describes: +2 per affordable keyword present in
`claimAffordabilityText`, -3 per expensive keyword present there. -/
def claimAffordabilityScore (r : SearchResult) : Int :=
  2 * (affordableKeywords.countP (fun kw => containsSub (claimAffordabilityText r) kw.data) : Int)
    - 3 * (expensiveKeywords.countP (fun kw => containsSub (claimAffordabilityText r) kw.data) : Int)

/-- The result named in the C1 counterexample: title `low`, snippet
`price`, no description. The code scans `"low price "` (finding the
keyword `low price`), while the claim's unseparated concatenation is
`"lowprice"` (finding nothing). -/
def lowPriceResult : SearchResult :=
  { title := "low", snippet := some "price", description := none, url := "" }

/-! ## Ranking in `findCheaperNearbySpots` -/

/-- The intermediate record built at locationSearch.js:184-190: a search
result together with its affordability score. -/
structure ScoredSpot where
  name : String
  description : Option String
  url : String
  affordabilityScore : Int
deriving DecidableEq

/-- The mapping step of `findCheaperNearbySpots`: name from the title,
description from `snippet || description`, score from the scorer. -/
def mkScoredSpot (r : SearchResult) : ScoredSpot :=
  { name := r.title,
    description := jsOrStr r.snippet r.description,
    url := r.url,
    affordabilityScore := calculateAffordabilityScore r }

/-- Stable insertion into a descending-by-score list: the new element goes
before the first element whose score does not exceed it.  Since the new
element precedes the list's elements in the original input, this keeps
equal-score elements in input order. -/
def insertSpot (x : ScoredSpot) : List ScoredSpot → List ScoredSpot
  | [] => [x]
  | y :: ys =>
      if y.affordabilityScore ≤ x.affordabilityScore then x :: y :: ys
      else y :: insertSpot x ys

/-- Model of the JS call `.sort((a, b) => b.affordabilityScore -
a.affordabilityScore)` (locationSearch.js:191).  ECMAScript `Array.sort`
is required to be stable and, with this comparator, orders by descending
score; it is modelled as the stable descending insertion sort. -/
def sortByScoreDesc : List ScoredSpot → List ScoredSpot
  | [] => []
  | x :: xs => insertSpot x (sortByScoreDesc xs)

/-! ## The two search cores -/

/-- A ranked spot as produced by `searchNearbyPlaces`
(locationSearch.js:44-49). -/
structure RankedSpot where
  rank : Nat
  name : String
  description : String
  url : String
deriving DecidableEq

/-- Return value of `searchNearbyPlaces`.  The error-branch return objects
carry no `query`/`location` fields, so those are `Option`s here. -/
structure SearchOutcome where
  query : Option String
  location : Option String
  error : Option String
  spots : List RankedSpot
deriving DecidableEq

/-- The pure core of `searchNearbyPlaces` (locationSearch.js:34-55),
taking the provider's response (possibly null) as a parameter.  The
description falls back through `snippet || description || 'No description
available'`. -/
def searchNearbyPlacesCore (userQuery : String) (userLocation : Option String)
    (searchResults : Option (List SearchResult)) : SearchOutcome :=
  match searchResults with
  | none =>
      { query := none, location := none,
        error := some "No results found for your query", spots := [] }
  | some rs =>
      if rs.length = 0 then
        { query := none, location := none,
          error := some "No results found for your query", spots := [] }
      else
        { query := some userQuery, location := userLocation, error := none,
          spots := (rs.take 3).enum.map (fun p =>
            { rank := p.1 + 1,
              name := p.2.title,
              description :=
                (jsOrStr (jsOrStr p.2.snippet p.2.description)
                  (some "No description available")).getD "",
              url := p.2.url }) }

/-- An alternative spot as produced by `findCheaperNearbySpots`
(locationSearch.js:197-202); its description may be absent. -/
structure AltSpot where
  rank : Nat
  name : String
  description : Option String
  url : String
deriving DecidableEq

/-- Return value of `findCheaperNearbySpots`. -/
structure AltOutcome where
  query : Option String
  location : Option String
  error : Option String
  alternatives : List AltSpot
deriving DecidableEq

/-- The pure core of `findCheaperNearbySpots` (locationSearch.js:175-203):
score every result, stable-sort descending by score, take the first 3,
re-number 1..3. -/
def findCheaperNearbySpotsCore (query location : String)
    (searchResults : Option (List SearchResult)) : AltOutcome :=
  match searchResults with
  | none =>
      { query := none, location := none,
        error := some "No results found", alternatives := [] }
  | some rs =>
      if rs.length = 0 then
        { query := none, location := none,
          error := some "No results found", alternatives := [] }
      else
        let rankedSpots := (sortByScoreDesc (rs.map mkScoredSpot)).take 3
        { query := some query, location := some location, error := none,
          alternatives := rankedSpots.enum.map (fun p =>
            { rank := p.1 + 1, name := p.2.name,
              description := p.2.description, url := p.2.url }) }

/-! ## AI-enhanced variants

The generative model is an external collaborator: its contribution is the
parsed JSON analysis (or a thrown error, covering both a failed model call
and `JSON.parse` failure), passed in as an `Except` parameter. -/

/-- A spot as it appears in the AI's parsed JSON for
`searchNearbyPlacesWithAI`; every field is whatever the model returned,
so all fields are optional. -/
structure AISpot where
  rank : Option Nat
  name : Option String
  description : Option String
  highlights : Option String
  url : Option String
deriving DecidableEq

/-- The parsed JSON object the model returns to
`searchNearbyPlacesWithAI`. -/
structure SearchAIAnalysis where
  summary : Option String
  spots : List AISpot
deriving DecidableEq

/-- Return value of `searchNearbyPlacesWithAI`; the spots may come either
from the AI's JSON or from a plain-search fallback. -/
structure AISearchOutcome where
  query : Option String
  location : Option String
  summary : Option String
  error : Option String
  spots : List AISpot
deriving DecidableEq

/-- View of a plain ranked spot as a dynamic JSON spot. -/
def RankedSpot.toAISpot (sp : RankedSpot) : AISpot :=
  { rank := some sp.rank, name := some sp.name,
    description := some sp.description, highlights := none,
    url := some sp.url }

/-- View of a plain search outcome as the AI-variant return shape (the
JS function returns the raw object unchanged on the early-return and
fallback paths). -/
def SearchOutcome.toAI (o : SearchOutcome) : AISearchOutcome :=
  { query := o.query, location := o.location, summary := none,
    error := o.error, spots := o.spots.map RankedSpot.toAISpot }

/-- The pure core of `searchNearbyPlacesWithAI` (locationSearch.js:74-127):
early-return the raw results on error/empty; on a model failure (thrown
call or unparsable JSON) fall back to a fresh plain search; otherwise
return the model's spots as-is. -/
def searchNearbyPlacesWithAICore (userQuery : String) (userLocation : Option String)
    (rawSearchResults retrySearchResults : Option (List SearchResult))
    (aiResponse : Except String SearchAIAnalysis) : AISearchOutcome :=
  let rawResults := searchNearbyPlacesCore userQuery userLocation rawSearchResults
  if jsTruthyStr rawResults.error || rawResults.spots.length == 0 then
    rawResults.toAI
  else
    match aiResponse with
    | .ok aiAnalysis =>
        { query := some userQuery, location := userLocation,
          summary := aiAnalysis.summary, error := none,
          spots := aiAnalysis.spots }
    | .error _ =>
        (searchNearbyPlacesCore userQuery userLocation retrySearchResults).toAI

/-- A spot as it appears in the AI's parsed JSON for
`findCheaperSpotsWithAI`, or upcast from an `AltSpot`. -/
structure CheapAISpot where
  rank : Option Nat
  name : Option String
  description : Option String
  reason : Option String
  estimatedPrice : Option String
  url : Option String
deriving DecidableEq

/-- The parsed JSON object the model returns to `findCheaperSpotsWithAI`. -/
structure CheapAIAnalysis where
  spots : List CheapAISpot
deriving DecidableEq

/-- Return value of `findCheaperSpotsWithAI`. -/
structure CheapAIOutcome where
  query : Option String
  location : Option String
  error : Option String
  alternatives : List CheapAISpot
deriving DecidableEq

/-- View of an alternative spot as a dynamic JSON spot. -/
def AltSpot.toCheapAISpot (sp : AltSpot) : CheapAISpot :=
  { rank := some sp.rank, name := some sp.name,
    description := sp.description, reason := none,
    estimatedPrice := none, url := some sp.url }

/-- View of a plain alternatives outcome as the AI-variant return shape. -/
def AltOutcome.toAI (o : AltOutcome) : CheapAIOutcome :=
  { query := o.query, location := o.location, error := o.error,
    alternatives := o.alternatives.map AltSpot.toCheapAISpot }

/-- The pure core of `findCheaperSpotsWithAI` (locationSearch.js:282-331):
early-return the raw results on error/empty; on model failure return the
error object with an empty list; otherwise return the model's spots
as-is. -/
def findCheaperSpotsWithAICore (query location : String)
    (rawSearchResults : Option (List SearchResult))
    (aiResponse : Except String CheapAIAnalysis) : CheapAIOutcome :=
  let dedalusResults := findCheaperNearbySpotsCore query location rawSearchResults
  if jsTruthyStr dedalusResults.error || dedalusResults.alternatives.length == 0 then
    dedalusResults.toAI
  else
    match aiResponse with
    | .ok aiAnalysis =>
        { query := some query, location := some location, error := none,
          alternatives := aiAnalysis.spots }
    | .error msg =>
        { query := none, location := none,
          error := some ("Failed to analyze alternatives: " ++ msg),
          alternatives := [] }

/-- Number of spots in the model's parsed JSON for the plain-search AI
variant (0 when the model call or parse failed). -/
def aiSpotCount : Except String SearchAIAnalysis → Nat
  | .ok a => a.spots.length
  | .error _ => 0

/-- Number of spots in the model's parsed JSON for the cheaper-spots AI
variant (0 when the model call or parse failed). -/
def cheapAiSpotCount : Except String CheapAIAnalysis → Nat
  | .ok a => a.spots.length
  | .error _ => 0

/-! ## Concrete example data named by the claims -/

/-- First input of the three-result ranking example. -/
def luxuryCafeResult : SearchResult :=
  { title := "Luxury Cafe", snippet := none, description := none, url := "u1" }

/-- Second input of the three-result ranking example. -/
def budgetDinerResult : SearchResult :=
  { title := "Budget Diner $5 meals", snippet := none, description := none, url := "u2" }

/-- Third input of the three-result ranking example. -/
def cornerStoreResult : SearchResult :=
  { title := "Corner Store", snippet := none, description := none, url := "u3" }

/-- A one-element provider response, used to reach the AI branch. -/
def singleResult : SearchResult :=
  { title := "t", snippet := none, description := none, url := "u" }

/-- A spot with every JSON field absent. -/
def blankAISpot : AISpot :=
  { rank := none, name := none, description := none, highlights := none, url := none }

/-- A model response carrying four spots — more than the invariant's cap. -/
def fourSpotAnalysis : SearchAIAnalysis :=
  { summary := none, spots := [blankAISpot, blankAISpot, blankAISpot, blankAISpot] }

end LocationSearch

namespace Photon

/-! ## Data model of `photon.js` -/

/-- A dynamically-typed JSON leaf value, as found in the fields of the
model's parsed receipt JSON. -/
inductive JsVal where
  | num (q : ℚ)
  | str (s : String)
  | undef
deriving DecidableEq

/-- Whether a JS value is a number (so `.toFixed` exists on it). -/
def JsVal.isNum : JsVal → Bool
  | .num _ => true
  | _ => false

/-- JS `Number.prototype.toFixed(2)` on a rational model of the number:
round to the nearest multiple of 1/100, ties picking the larger count of
hundredths, sign rendered first (ECMAScript `Number.prototype.toFixed`).
The floating-point representation error of the underlying double is not
modelled. -/
def toFixed2 (q : ℚ) : String :=
  let cents : Nat := (200 * q.num.natAbs + q.den) / (2 * q.den)
  (if q.num < 0 then "-" else "") ++ Nat.repr (cents / 100) ++ "." ++
    (if cents % 100 < 10 then "0" ++ Nat.repr (cents % 100)
     else Nat.repr (cents % 100))

/-- Evaluation of `v.toFixed(2)`: succeeds only when `v` is a number;
on any other value the JS expression throws a `TypeError`. -/
def jsToFixed2 : JsVal → Except Unit String
  | .num q => .ok (toFixed2 q)
  | _ => .error ()

/-- JS string interpolation of a value.  Integral numbers are rendered
exactly; the shortest-round-trip decimal printing of non-integral doubles
is not modelled (the receipt data model only produces integral
quantities), and `undefined` interpolates as the literal text. -/
def jsToString : JsVal → String
  | .str s => s
  | .num q =>
      if q.den = 1 then
        (if q.num < 0 then "-" ++ Nat.repr q.num.natAbs else Nat.repr q.num.natAbs)
      else "[non-integral number]"
  | .undef => "undefined"

/-- One line item of the model's parsed receipt JSON; each field is
whatever JSON value the model produced. -/
structure ReceiptItem where
  name : JsVal
  quantity : JsVal
  price : JsVal
deriving DecidableEq

/-- The parsed receipt JSON as consumed by `handleMessage`: an `error`
field, an `items` array and a `total`, each possibly absent. -/
structure ReceiptData where
  error : Option String
  items : Option (List ReceiptItem)
  total : JsVal
deriving DecidableEq

/-! ## `analyzeReceipt` (photon.js:25-76) -/

/-- The backtick character, used by markdown code fences. -/
def backtick : Char := Char.ofNat 96

/-- Removes every occurrence of the pattern `p0 :: ps` optionally followed
by one newline, scanning left to right without rescanning removed text —
the semantics of JS `String.replace` with a global regex `pat\n?` and an
empty replacement. -/
def removeFence (p0 : Char) (ps : List Char) : List Char → List Char
  | [] => []
  | c :: rest =>
      if p0 == c && hasPfx (ps ++ ['\n']) rest then
        removeFence p0 ps (rest.drop (ps.length + 1))
      else if p0 == c && hasPfx ps rest then
        removeFence p0 ps (rest.drop ps.length)
      else c :: removeFence p0 ps rest
termination_by l => l.length
decreasing_by
  all_goals simp [List.length_drop]
  all_goals omega

/-- The two fence-stripping passes of photon.js:69: first delete every
`` ```json `` (with optional trailing newline), then every `` ``` ``. -/
def stripCodeFences (s : String) : String :=
  let firstPass := removeFence backtick ([backtick, backtick] ++ "json".data) s.data
  ⟨removeFence backtick [backtick, backtick] firstPass⟩

/-- JS whitespace recognized by the model of `String.prototype.trim`. -/
def isJsSpace (c : Char) : Bool :=
  c == ' ' || c == '\n' || c == '\t' || c == '\r'

/-- Model of JS `String.prototype.trim`: drop leading and trailing
whitespace. -/
def trimString (s : String) : String :=
  ⟨((s.data.dropWhile isJsSpace).reverse.dropWhile isJsSpace).reverse⟩

/-- Embedding of `analyzeReceipt` (photon.js:25-76).  The collaborators
are parameters: the image file read, the model call (either may fail,
modelling a thrown exception with its message), and `JSON.parse` applied
to the fence-stripped text (failing with the JS error message).  Every
failure is caught and converted to the error variant. -/
def analyzeReceipt (fileRead : Except String Unit)
    (modelResponse : Except String String)
    (jsonParse : String → Except String ReceiptData) : ReceiptData :=
  match fileRead with
  | .error msg =>
      { error := some ("Failed to analyze receipt: " ++ msg),
        items := none, total := .undef }
  | .ok _ =>
      match modelResponse with
      | .error msg =>
          { error := some ("Failed to analyze receipt: " ++ msg),
            items := none, total := .undef }
      | .ok text =>
          match jsonParse (stripCodeFences (trimString text)) with
          | .error msg =>
              { error := some ("Failed to analyze receipt: " ++ msg),
                items := none, total := .undef }
          | .ok receiptData => receiptData

/-! ## `handleMessage` (photon.js:79-131) -/

/-- An iMessage attachment as read by the dispatcher. -/
structure Attachment where
  path : String
  mimeType : Option String
  filename : String
deriving DecidableEq

/-- An incoming message: sender, optional text, optional attachment
array. -/
structure IncomingMessage where
  sender : String
  text : Option String
  attachments : Option (List Attachment)
deriving DecidableEq

/-- The dispatcher's image test: `attachment.mimeType?.startsWith('image/')`
(falsy when the MIME type is absent). -/
def isImageAttachment (a : Attachment) : Bool :=
  match a.mimeType with
  | none => false
  | some m => hasPfx "image/".data m.data

/-- One rendered item line of the receipt reply (photon.js:106-107). -/
def itemLine (index : Nat) (item : ReceiptItem) (priceText : String) : String :=
  Nat.repr (index + 1) ++ ". " ++ jsToString item.name ++ "\n   Qty: " ++
    jsToString item.quantity ++ " × $" ++ priceText ++ "\n"

/-- The item loop of photon.js:105-108: append one line per item, throwing
(`.error`) at the first item whose price has no `toFixed`. -/
def formatItems : Nat → List ReceiptItem → Except Unit String
  | _, [] => .ok ""
  | index, item :: rest =>
      match jsToFixed2 item.price with
      | .error e => .error e
      | .ok p =>
          match formatItems (index + 1) rest with
          | .error e => .error e
          | .ok s => .ok (itemLine index item p ++ s)

/-- The response assembly of photon.js:100-112 for a non-error analysis:
header, item lines and total when a non-empty items array is present,
otherwise the no-items text.  `.error` models a thrown `TypeError` from
`.toFixed` on a non-number price or total. -/
def formatReceiptResponse (receiptData : ReceiptData) : Except Unit String :=
  match receiptData.items with
  | some items =>
      if items.length > 0 then
        match formatItems 0 items with
        | .error e => .error e
        | .ok body =>
            match jsToFixed2 receiptData.total with
            | .error e => .error e
            | .ok t =>
                .ok ("🧾 Receipt Analysis:\n\nItems:\n" ++ body ++
                      "\n💰 Total: $" ++ t)
      else .ok "🧾 Receipt Analysis:\n\nNo items found in receipt."
  | none => .ok "🧾 Receipt Analysis:\n\nNo items found in receipt."

/-- The static text-only reply (photon.js:129). -/
def receiptPrompt : String := "📸 Please send me a receipt image to analyze!"

/-- The generic notice sent by the per-attachment catch (photon.js:123). -/
def troubleNotice : String := "❌ Sorry, I had trouble processing that receipt."

/-- Handling of one attachment inside the loop (photon.js:88-126): images
are analyzed and answered; the per-attachment catch converts a formatting
throw into the generic notice; non-images produce nothing.  Sends are
returned as (recipient, text) pairs in order. -/
def processReceiptAttachment (analyze : String → ReceiptData) (sender : String)
    (attachment : Attachment) : List (String × String) :=
  if isImageAttachment attachment then
    let receiptData := analyze attachment.path
    if jsTruthyStr receiptData.error then
      [(sender, "❌ Error: " ++ receiptData.error.getD "")]
    else
      match formatReceiptResponse receiptData with
      | .ok response => [(sender, response)]
      | .error _ => [(sender, troubleNotice)]
  else []

/-- The text-only branch of the dispatcher (photon.js:127-130): a truthy
text gets the static prompt, anything else is a no-op. -/
def textOnlyReply (message : IncomingMessage) : List (String × String) :=
  match message.text with
  | some t => if t == "" then [] else [(message.sender, receiptPrompt)]
  | none => []

/-- Embedding of `handleMessage` (photon.js:79-131), with the analyzer as
a collaborator parameter (a function of the attachment path) and the sends
through the transport collected in order. -/
def handleMessage (analyze : String → ReceiptData) (message : IncomingMessage) :
    List (String × String) :=
  match message.attachments with
  | some attachments =>
      if attachments.length > 0 then
        (attachments.map (processReceiptAttachment analyze message.sender)).flatten
      else textOnlyReply message
  | none => textOnlyReply message

/-- The price text an all-numeric item contributes to its line (the
defaulted branches are never reached on numeric prices). -/
def priceFixed (item : ReceiptItem) : String :=
  match item.price with
  | .num q => toFixed2 q
  | .str _ => ""
  | .undef => ""

/-- The single reply sent when the analyzer result is the error variant:
the failure notice for a truthy error text, the no-items reply for the
(falsy) empty error text. -/
def errorVariantReply (e : String) : String :=
  if e == "" then "🧾 Receipt Analysis:\n\nNo items found in receipt."
  else "❌ Error: " ++ e

/-! ## Concrete example data named by the claims -/

/-- The line item of the receipt-formatting example: Coffee, quantity 2,
price 3.5. -/
def coffeeItem : ReceiptItem :=
  { name := .str "Coffee", quantity := .num 2, price := .num (mkRat 7 2) }

/-- An item whose price is a string, so `.toFixed(2)` on it throws. -/
def badPriceItem : ReceiptItem :=
  { name := .str "Coffee", quantity := .num 1, price := .str "3.50" }

/-- An analyzer that always reports the model's cannot-read error. -/
def cannotReadAnalyzer : String → ReceiptData :=
  fun _ => { error := some "Could not parse receipt", items := none, total := .undef }

/-- An analyzer whose success result has a non-numeric item price. -/
def badPriceAnalyzer : String → ReceiptData :=
  fun _ => { error := none, items := some [badPriceItem], total := .num 5 }

/-- Concatenation of a list of strings in order. -/
def strConcat : List String → String
  | [] => ""
  | s :: rest => s ++ strConcat rest

/-- An attachment that is not an image. -/
def pdfAttachment : Attachment :=
  { path := "doc.pdf", mimeType := some "application/pdf", filename := "doc.pdf" }

/-- An image attachment. -/
def receiptImageAttachment : Attachment :=
  { path := "receipt.jpg", mimeType := some "image/jpeg", filename := "receipt.jpg" }

end Photon

/-! # Lemmas and claim theorems

Everything below is proved about the definitions above; no further
definitions of program behaviour appear past this point. -/

/-- A list is a leading segment of itself. -/
theorem hasPfx_self : ∀ l : List Char, hasPfx l l = true
  | [] => rfl
  | c :: cs => by simp [hasPfx, hasPfx_self cs]

/-- A pattern occurs in any string that ends with it. -/
theorem containsSub_append_self :
    ∀ pre pat : List Char, containsSub (pre ++ pat) pat = true
  | [], pat => by
    cases pat with
    | nil => rfl
    | cons c cs => simp [containsSub, hasPfx_self]
  | c :: pre, pat => by
    simp [containsSub, containsSub_append_self pre pat]

/-- Mapping to empty lists flattens to the empty list. -/
theorem flatten_map_eq_nil {α β : Type} (f : α → List β) :
    ∀ l : List α, (∀ a ∈ l, f a = []) → (l.map f).flatten = []
  | [], _ => rfl
  | x :: xs, h => by
    rw [List.map_cons, List.flatten_cons, h x (List.mem_cons_self x xs),
      flatten_map_eq_nil f xs (fun a ha => h a (List.mem_cons_of_mem x ha))]
    rfl

namespace LocationSearch

/-- A guarded fold that conditionally adds a constant is the constant times
the number of elements passing the guard. -/
theorem foldl_ite_add (c : Int) (p : String → Bool) :
    ∀ (l : List String) (a : Int),
      l.foldl (fun score kw => if p kw then score + c else score) a
        = a + c * (l.countP p : Int)
  | [], a => by simp [List.foldl, List.countP_nil]
  | kw :: l, a => by
    rw [List.foldl_cons, foldl_ite_add c p l, List.countP_cons]
    by_cases h : p kw = true
    · rw [if_pos h, if_pos h]
      push_cast
      ring
    · rw [if_neg h, if_neg h]
      push_cast
      ring

/-- The subtracting counterpart of `foldl_ite_add`. -/
theorem foldl_ite_sub (c : Int) (p : String → Bool) :
    ∀ (l : List String) (a : Int),
      l.foldl (fun score kw => if p kw then score - c else score) a
        = a - c * (l.countP p : Int)
  | [], a => by simp [List.foldl, List.countP_nil]
  | kw :: l, a => by
    rw [List.foldl_cons, foldl_ite_sub c p l, List.countP_cons]
    by_cases h : p kw = true
    · rw [if_pos h, if_pos h]
      push_cast
      ring
    · rw [if_neg h, if_neg h]
      push_cast
      ring

theorem length_insertSpot (x : ScoredSpot) :
    ∀ l : List ScoredSpot, (insertSpot x l).length = l.length + 1
  | [] => rfl
  | y :: ys => by
    by_cases h : y.affordabilityScore ≤ x.affordabilityScore <;>
      simp [insertSpot, h, length_insertSpot x ys]

theorem length_sortByScoreDesc :
    ∀ l : List ScoredSpot, (sortByScoreDesc l).length = l.length
  | [] => rfl
  | x :: xs => by
    simp [sortByScoreDesc, length_insertSpot, length_sortByScoreDesc xs]

theorem mem_insertSpot {z x : ScoredSpot} :
    ∀ {l : List ScoredSpot}, z ∈ insertSpot x l ↔ z = x ∨ z ∈ l
  | [] => by simp [insertSpot]
  | y :: ys => by
    by_cases h : y.affordabilityScore ≤ x.affordabilityScore
    · simp [insertSpot, h]
    · simp only [insertSpot, if_neg h, List.mem_cons, mem_insertSpot (l := ys)]
      tauto

/-- Inserting preserves descending sortedness. -/
theorem pairwise_insertSpot {x : ScoredSpot} :
    ∀ {l : List ScoredSpot},
      l.Pairwise (fun a b => b.affordabilityScore ≤ a.affordabilityScore) →
      (insertSpot x l).Pairwise (fun a b => b.affordabilityScore ≤ a.affordabilityScore)
  | [], _ => by simp [insertSpot]
  | y :: ys, h => by
    rcases List.pairwise_cons.mp h with ⟨hy, hys⟩
    by_cases hc : y.affordabilityScore ≤ x.affordabilityScore
    · rw [insertSpot, if_pos hc]
      refine List.pairwise_cons.mpr ⟨?_, h⟩
      intro z hz
      rcases List.mem_cons.mp hz with rfl | hz
      · exact hc
      · exact le_trans (hy z hz) hc
    · rw [insertSpot, if_neg hc]
      refine List.pairwise_cons.mpr ⟨?_, pairwise_insertSpot hys⟩
      intro z hz
      rcases mem_insertSpot.mp hz with rfl | hz
      · exact le_of_not_le hc
      · exact hy z hz

/-- The sorted list is descending in score. -/
theorem sortByScoreDesc_pairwise :
    ∀ l : List ScoredSpot,
      (sortByScoreDesc l).Pairwise (fun a b => b.affordabilityScore ≤ a.affordabilityScore)
  | [] => List.Pairwise.nil
  | x :: xs => pairwise_insertSpot (sortByScoreDesc_pairwise xs)

/-- Filtering an insertion at the inserted element's own score prepends the
element: everything skipped before the insertion point has a strictly
greater score. -/
theorem filter_insertSpot_eq {x : ScoredSpot} {s : Int} (hx : x.affordabilityScore = s) :
    ∀ l : List ScoredSpot,
      (insertSpot x l).filter (fun z => z.affordabilityScore == s)
        = x :: l.filter (fun z => z.affordabilityScore == s)
  | [] => by simp [insertSpot, List.filter_cons, hx]
  | y :: ys => by
    by_cases hc : y.affordabilityScore ≤ x.affordabilityScore
    · rw [insertSpot, if_pos hc, List.filter_cons, if_pos (by simp [hx])]
    · have hy : (y.affordabilityScore == s) = false := by
        simp only [beq_eq_false_iff_ne, ne_eq]
        intro he
        exact hc (by rw [he, hx])
      rw [insertSpot, if_neg hc, List.filter_cons, hy, List.filter_cons, hy]
      simp only [Bool.false_eq_true, if_false]
      exact filter_insertSpot_eq hx ys

/-- Filtering an insertion at any other score ignores the insertion. -/
theorem filter_insertSpot_ne {x : ScoredSpot} {s : Int} (hx : ¬ x.affordabilityScore = s) :
    ∀ l : List ScoredSpot,
      (insertSpot x l).filter (fun z => z.affordabilityScore == s)
        = l.filter (fun z => z.affordabilityScore == s)
  | [] => by simp [insertSpot, List.filter_cons, hx]
  | y :: ys => by
    by_cases hc : y.affordabilityScore ≤ x.affordabilityScore
    · rw [insertSpot, if_pos hc, List.filter_cons, if_neg (by simp [hx])]
    · rw [insertSpot, if_neg hc, List.filter_cons, List.filter_cons]
      by_cases hy : (y.affordabilityScore == s) = true <;>
        simp [hy, filter_insertSpot_ne hx ys]

/-- Stability: restricted to any one score, the sorted list is the input
list — equal-score elements keep their relative input order. -/
theorem filter_sortByScoreDesc (s : Int) :
    ∀ l : List ScoredSpot,
      (sortByScoreDesc l).filter (fun z => z.affordabilityScore == s)
        = l.filter (fun z => z.affordabilityScore == s)
  | [] => rfl
  | x :: xs => by
    rw [sortByScoreDesc, List.filter_cons]
    by_cases hx : x.affordabilityScore = s
    · rw [filter_insertSpot_eq hx, filter_sortByScoreDesc s xs, if_pos (by simp [hx])]
    · rw [filter_insertSpot_ne hx, filter_sortByScoreDesc s xs, if_neg (by simp [hx])]

/-- Numbering an enumeration: the ranks `index + 1` of `l.enumFrom n`
form the contiguous sequence `n+1, …, n+length`. -/
theorem map_fst_succ_enumFrom :
    ∀ (l : List ScoredSpot) (n : Nat),
      ((List.enumFrom n l).map (fun p => p.1 + 1)) = List.range' (n + 1) l.length
  | [], _ => rfl
  | x :: xs, n => by
    rw [List.enumFrom_cons, List.map_cons, map_fst_succ_enumFrom xs (n + 1)]
    rfl

/-- Same statement for lists of raw search results. -/
theorem map_fst_succ_enumFrom_results :
    ∀ (l : List SearchResult) (n : Nat),
      ((List.enumFrom n l).map (fun p => p.1 + 1)) = List.range' (n + 1) l.length
  | [], _ => rfl
  | x :: xs, n => by
    rw [List.enumFrom_cons, List.map_cons, map_fst_succ_enumFrom_results xs (n + 1)]
    rfl

/-! ## Claim C1 -/

/-- C1 fails as stated: the code scans the space-separated template string
`title + ' ' + snippet + ' ' + description`, not the plain concatenation
the claim describes.  At title `low`, snippet `price`, the code's text
`"low price "` contains the keyword `low price` and scores 2, while no
keyword occurs in the claim's concatenation `"lowprice"`, which therefore
prescribes 0. -/
theorem claim1_counterexample :
    calculateAffordabilityScore lowPriceResult = 2 ∧
    claimAffordabilityScore lowPriceResult = 0 ∧
    calculateAffordabilityScore lowPriceResult ≠ claimAffordabilityScore lowPriceResult :=
  ⟨by decide, by decide, by decide⟩

/-- C1 as amended: with the scanned text being the space-separated
(rather than plain) concatenation of title, snippet and description
(absent fields empty), lower-cased, the affordability score is exactly
+2 for each affordable keyword occurring as a substring and -3 for each
expensive keyword occurring as a substring — each keyword counted once
(presence, not frequency), 0 when nothing matches, possibly negative. -/
theorem claim1_affordability_score (r : SearchResult) :
    calculateAffordabilityScore r
      = 2 * (affordableKeywords.countP
              (fun kw => containsSub (affordabilityText r) kw.data) : Int)
        - 3 * (expensiveKeywords.countP
              (fun kw => containsSub (affordabilityText r) kw.data) : Int) := by
  simp only [calculateAffordabilityScore]
  rw [foldl_ite_sub 3 (fun kw => containsSub (affordabilityText r) kw.data),
    foldl_ite_add 2 (fun kw => containsSub (affordabilityText r) kw.data)]
  ring

/-! ## Claim C2 -/

/-- C2: affordability-mode ranking is a stable descending sort by score —
the sorted list is pairwise descending, restricting it to any one score
value gives back exactly the input's elements of that score in input
order, and on the three-result example the scores are -3, 4, 0 and the
ranked output is Budget Diner (1), Corner Store (2), Luxury Cafe (3). -/
theorem claim2_stable_descending_ranking :
    (∀ l : List ScoredSpot,
        (sortByScoreDesc l).Pairwise
          (fun a b => b.affordabilityScore ≤ a.affordabilityScore)) ∧
    (∀ (l : List ScoredSpot) (s : Int),
        (sortByScoreDesc l).filter (fun z => z.affordabilityScore == s)
          = l.filter (fun z => z.affordabilityScore == s)) ∧
    calculateAffordabilityScore luxuryCafeResult = -3 ∧
    calculateAffordabilityScore budgetDinerResult = 4 ∧
    calculateAffordabilityScore cornerStoreResult = 0 ∧
    (findCheaperNearbySpotsCore "diner" "campus"
        (some [luxuryCafeResult, budgetDinerResult, cornerStoreResult])).alternatives.map
        (fun sp => (sp.rank, sp.name))
      = [(1, "Budget Diner $5 meals"), (2, "Corner Store"), (3, "Luxury Cafe")] :=
  ⟨sortByScoreDesc_pairwise, fun l s => filter_sortByScoreDesc s l,
    by decide, by decide, by decide, by decide⟩

/-! ## Claim C3 -/

/-- The plain ranked list never exceeds three spots. -/
theorem searchNearbyPlacesCore_spots_le_three
    (q : String) (loc : Option String) (srs : Option (List SearchResult)) :
    (searchNearbyPlacesCore q loc srs).spots.length ≤ 3 := by
  match srs with
  | none => simp [searchNearbyPlacesCore]
  | some rs =>
    by_cases h : rs.length = 0
    · simp [searchNearbyPlacesCore, h]
    · simp [searchNearbyPlacesCore, h, List.length_take]

/-- The cheaper-alternatives list never exceeds three spots. -/
theorem findCheaperNearbySpotsCore_le_three
    (q loc : String) (srs : Option (List SearchResult)) :
    (findCheaperNearbySpotsCore q loc srs).alternatives.length ≤ 3 := by
  match srs with
  | none => simp [findCheaperNearbySpotsCore]
  | some rs =>
    by_cases h : rs.length = 0
    · simp [findCheaperNearbySpotsCore, h]
    · simp [findCheaperNearbySpotsCore, h, List.length_take]

/-- C3: in both modes the ranked output has length `min 3 n` and its rank
fields are the dense sequence `1..length`; on empty provider input both
cores return the empty list together with a no-results error value
(returning normally, not throwing). -/
theorem claim3_rank_length_and_density :
    (∀ (q : String) (loc : Option String) (rs : List SearchResult),
        (searchNearbyPlacesCore q loc (some rs)).spots.length = min 3 rs.length ∧
        (searchNearbyPlacesCore q loc (some rs)).spots.map (fun sp => sp.rank)
          = List.range' 1 (min 3 rs.length)) ∧
    (∀ (q loc : String) (rs : List SearchResult),
        (findCheaperNearbySpotsCore q loc (some rs)).alternatives.length = min 3 rs.length ∧
        (findCheaperNearbySpotsCore q loc (some rs)).alternatives.map (fun sp => sp.rank)
          = List.range' 1 (min 3 rs.length)) ∧
    (∀ (q : String) (loc : Option String),
        (searchNearbyPlacesCore q loc (some [])).spots = [] ∧
        (searchNearbyPlacesCore q loc (some [])).error.isSome = true) ∧
    (∀ q loc : String,
        (findCheaperNearbySpotsCore q loc (some [])).alternatives = [] ∧
        (findCheaperNearbySpotsCore q loc (some [])).error.isSome = true) := by
  refine ⟨fun q loc rs => ?_, fun q loc rs => ?_, fun q loc => ⟨rfl, rfl⟩,
    fun q loc => ⟨rfl, rfl⟩⟩
  · by_cases h : rs.length = 0
    · rw [List.length_eq_zero.mp h]
      exact ⟨rfl, rfl⟩
    · constructor
      · simp [searchNearbyPlacesCore, h, List.length_take]
      · simp only [searchNearbyPlacesCore, if_neg h]
        rw [List.map_map]
        have h2 := map_fst_succ_enumFrom_results (rs.take 3) 0
        rw [List.length_take] at h2
        exact h2
  · by_cases h : rs.length = 0
    · rw [List.length_eq_zero.mp h]
      exact ⟨rfl, rfl⟩
    · constructor
      · simp [findCheaperNearbySpotsCore, h, List.length_take,
          length_sortByScoreDesc]
      · simp only [findCheaperNearbySpotsCore, if_neg h]
        rw [List.map_map]
        have h2 := map_fst_succ_enumFrom
          ((sortByScoreDesc (rs.map mkScoredSpot)).take 3) 0
        rw [List.length_take, length_sortByScoreDesc, List.length_map] at h2
        exact h2

/-! ## Claim C4 -/

/-- C4 fails as stated: when the provider yields one result and the model's
parsed JSON carries four spots, `searchNearbyPlacesWithAI` returns all four
— the AI path never truncates the model's list to 3. -/
theorem claim4_counterexample :
    3 < (searchNearbyPlacesWithAICore "coffee" none (some [singleResult])
          none (.ok fourSpotAnalysis)).spots.length := by decide

/-- C4 as amended: the non-AI search paths always return at most 3 spots,
and the AI variants return at most `max 3 k` spots where `k` is the number
of spots in the model's parsed JSON — so at most 3 whenever the model
returns at most 3, but the model's list itself is passed through
untruncated. -/
theorem claim4_list_length_bounds :
    (∀ (q : String) (loc : Option String) (srs : Option (List SearchResult)),
        (searchNearbyPlacesCore q loc srs).spots.length ≤ 3) ∧
    (∀ (q loc : String) (srs : Option (List SearchResult)),
        (findCheaperNearbySpotsCore q loc srs).alternatives.length ≤ 3) ∧
    (∀ (q : String) (loc : Option String)
        (raw retry : Option (List SearchResult))
        (ai : Except String SearchAIAnalysis),
        (searchNearbyPlacesWithAICore q loc raw retry ai).spots.length
          ≤ max 3 (aiSpotCount ai)) ∧
    (∀ (q loc : String) (raw : Option (List SearchResult))
        (ai : Except String CheapAIAnalysis),
        (findCheaperSpotsWithAICore q loc raw ai).alternatives.length
          ≤ max 3 (cheapAiSpotCount ai)) := by
  refine ⟨searchNearbyPlacesCore_spots_le_three, findCheaperNearbySpotsCore_le_three,
    fun q loc raw retry ai => ?_, fun q loc raw ai => ?_⟩
  · simp only [searchNearbyPlacesWithAICore]
    by_cases hc : (jsTruthyStr (searchNearbyPlacesCore q loc raw).error
        || (searchNearbyPlacesCore q loc raw).spots.length == 0) = true
    · rw [if_pos hc]
      simp only [SearchOutcome.toAI, List.length_map]
      exact le_trans (searchNearbyPlacesCore_spots_le_three q loc raw) (le_max_left _ _)
    · rw [if_neg hc]
      match ai with
      | .ok a =>
        simp only [aiSpotCount]
        exact le_max_right _ _
      | .error m =>
        simp only [SearchOutcome.toAI, List.length_map]
        exact le_trans (searchNearbyPlacesCore_spots_le_three q loc retry) (le_max_left _ _)
  · simp only [findCheaperSpotsWithAICore]
    by_cases hc : (jsTruthyStr (findCheaperNearbySpotsCore q loc raw).error
        || (findCheaperNearbySpotsCore q loc raw).alternatives.length == 0) = true
    · rw [if_pos hc]
      simp only [AltOutcome.toAI, List.length_map]
      exact le_trans (findCheaperNearbySpotsCore_le_three q loc raw) (le_max_left _ _)
    · rw [if_neg hc]
      match ai with
      | .ok a =>
        simp only [cheapAiSpotCount]
        exact le_max_right _ _
      | .error m => simp

end LocationSearch

namespace Photon

/-! ## Claim C5 -/

/-- C5: `analyzeReceipt` never throws past its boundary.  For every
file-read outcome, model outcome and parse outcome, the call returns a
normal value: either it already carries an `error` field (file-read
failure, model-call failure, or `JSON.parse` failure — the catch branch),
or the model call succeeded and the parser, applied to the model text
trimmed and stripped of code-fence markers, succeeded, and the parsed
object (which may itself be the model-reported error variant) is returned
unchanged. -/
theorem claim5_analyzeReceipt_never_throws :
    ∀ (fileRead : Except String Unit) (modelResponse : Except String String)
      (jsonParse : String → Except String ReceiptData),
      (analyzeReceipt fileRead modelResponse jsonParse).error.isSome = true ∨
      (∃ (text : String) (d : ReceiptData),
        modelResponse = .ok text ∧
        jsonParse (stripCodeFences (trimString text)) = .ok d ∧
        analyzeReceipt fileRead modelResponse jsonParse = d) := by
  intro fr mr jp
  cases fr with
  | error msg => exact Or.inl rfl
  | ok u =>
    cases mr with
    | error msg => exact Or.inl rfl
    | ok text =>
      cases hp : jp (stripCodeFences (trimString text)) with
      | error msg => exact Or.inl (by simp [analyzeReceipt, hp])
      | ok d => exact Or.inr ⟨text, d, rfl, hp, by simp [analyzeReceipt, hp]⟩

/-! ## Claims about the dispatcher -/

/-- A message whose only attachment is `a` is handled exactly by the
per-attachment processing of `a`. -/
theorem handleMessage_single (analyze : String → ReceiptData) (sender : String)
    (text : Option String) (a : Attachment) :
    handleMessage analyze { sender := sender, text := text, attachments := some [a] }
      = processReceiptAttachment analyze sender a := by
  simp [handleMessage]

/-- Per-attachment handling when the analyzer yields the error variant:
one reply, which is the failure notice for a truthy error text and the
no-items reply for the (falsy) empty error text. -/
theorem processReceiptAttachment_error (analyze : String → ReceiptData)
    (sender : String) (a : Attachment) (e : String)
    (himg : isImageAttachment a = true)
    (hanalyze : analyze a.path = { error := some e, items := none, total := .undef }) :
    processReceiptAttachment analyze sender a = [(sender, errorVariantReply e)] := by
  rw [processReceiptAttachment, if_pos himg, hanalyze]
  by_cases he : e = ""
  · subst he
    rfl
  · have heb : (e == "") = false := by simpa using he
    simp [jsTruthyStr, heb, errorVariantReply]

/-- C6: for a message with one image attachment whose analysis is the
error variant, exactly one reply goes to the sender, that reply contains
the error text, and it is the error-variant reply (never the itemized
item/total formatting). -/
theorem claim6_error_variant_reply (analyze : String → ReceiptData)
    (sender : String) (text : Option String) (a : Attachment) (e : String)
    (himg : isImageAttachment a = true)
    (hanalyze : analyze a.path = { error := some e, items := none, total := .undef }) :
    handleMessage analyze { sender := sender, text := text, attachments := some [a] }
      = [(sender, errorVariantReply e)] ∧
    containsSub (errorVariantReply e).data e.data = true := by
  constructor
  · rw [handleMessage_single, processReceiptAttachment_error analyze sender a e himg hanalyze]
  · by_cases he : e = ""
    · subst he
      decide
    · have heb : (e == "") = false := by simpa using he
      simp only [errorVariantReply, heb, Bool.false_eq_true, if_false]
      exact containsSub_append_self ("❌ Error: ".data) e.data

/-- C6 witness at a concrete message and analyzer. -/
theorem claim6_witness :
    isImageAttachment receiptImageAttachment = true ∧
    handleMessage cannotReadAnalyzer
        { sender := "a", text := none, attachments := some [receiptImageAttachment] }
      = [("a", errorVariantReply "Could not parse receipt")] ∧
    containsSub (errorVariantReply "Could not parse receipt").data
        "Could not parse receipt".data = true :=
  ⟨by decide,
    (claim6_error_variant_reply cannotReadAnalyzer "a" none receiptImageAttachment
      "Could not parse receipt" (by decide) rfl).1,
    (claim6_error_variant_reply cannotReadAnalyzer "a" none receiptImageAttachment
      "Could not parse receipt" (by decide) rfl).2⟩

/-! ## Claim C7 -/

/-- C7 fails as stated: a message whose `text` field holds the empty
string has text and no attachments, yet the dispatcher sends nothing at
all (JS truthiness makes `''` fall through every branch), not the one
static-prompt reply the claim requires for every text content. -/
theorem claim7_counterexample :
    handleMessage cannotReadAnalyzer
        { sender := "a", text := some "", attachments := none } = [] := rfl

/-- C7 as amended: for every message with non-empty text and no
attachments (absent array or empty array), the dispatcher sends exactly
one reply to the sender, the static receipt prompt, regardless of the
text's content. -/
theorem claim7_text_prompt (analyze : String → ReceiptData) (sender t : String)
    (atts : Option (List Attachment))
    (hatts : atts = none ∨ atts = some []) (ht : t ≠ "") :
    handleMessage analyze { sender := sender, text := some t, attachments := atts }
      = [(sender, receiptPrompt)] := by
  have htb : (t == "") = false := by simpa using ht
  rcases hatts with rfl | rfl
  · simp [handleMessage, textOnlyReply, htb]
  · simp [handleMessage, textOnlyReply, htb]

/-- C7 witness at a concrete message. -/
theorem claim7_witness :
    ("hello" ≠ "") ∧
    handleMessage cannotReadAnalyzer
        { sender := "a", text := some "hello", attachments := none }
      = [("a", receiptPrompt)] :=
  ⟨by decide,
    claim7_text_prompt cannotReadAnalyzer "a" "hello" none (Or.inl rfl) (by decide)⟩

/-! ## Claim C9 -/

/-- C9: a message whose non-empty attachment list contains no image
attachment produces no reply at all — the loop skips every attachment and
the text-only branch is never reached, whatever the text. -/
theorem claim9_non_image_silent (analyze : String → ReceiptData) (sender : String)
    (text : Option String) (atts : List Attachment)
    (hne : atts ≠ [])
    (himg : ∀ a ∈ atts, isImageAttachment a = false) :
    handleMessage analyze { sender := sender, text := text, attachments := some atts }
      = [] := by
  have hlen : 0 < atts.length := List.length_pos.mpr hne
  simp only [handleMessage]
  rw [if_pos hlen]
  exact flatten_map_eq_nil _ atts (fun a ha => by
    simp [processReceiptAttachment, himg a ha])

/-- C9 witness at a concrete message with a PDF attachment and text. -/
theorem claim9_witness :
    ([pdfAttachment] ≠ []) ∧
    (∀ a ∈ [pdfAttachment], isImageAttachment a = false) ∧
    handleMessage cannotReadAnalyzer
        { sender := "a", text := some "hi", attachments := some [pdfAttachment] }
      = [] :=
  ⟨by decide, by decide,
    claim9_non_image_silent cannotReadAnalyzer "a" (some "hi") [pdfAttachment]
      (by decide) (by decide)⟩

/-! ## Claim C8 -/

/-- On all-numeric prices, the item loop renders one line per item, each
line carrying the 1-based index, the name, the quantity and the price
fixed to two decimals. -/
theorem formatItems_join :
    ∀ (i : Nat) (items : List ReceiptItem),
      (∀ it ∈ items, it.price.isNum = true) →
      formatItems i items
        = .ok (strConcat ((List.enumFrom i items).map
            (fun p => itemLine p.1 p.2 (priceFixed p.2))))
  | _, [], _ => rfl
  | i, it :: rest, h => by
    obtain ⟨q, hq⟩ : ∃ q, it.price = .num q := by
      have hn := h it (List.mem_cons_self it rest)
      cases hv : it.price with
      | num q => exact ⟨q, rfl⟩
      | str s => rw [hv] at hn; exact absurd hn (by simp [JsVal.isNum])
      | undef => rw [hv] at hn; exact absurd hn (by simp [JsVal.isNum])
    have hrest := formatItems_join (i + 1) rest
      (fun b hb => h b (List.mem_cons_of_mem it hb))
    rw [formatItems, hq]
    simp only [jsToFixed2, hrest, List.enumFrom_cons, List.map_cons]
    rw [strConcat]
    simp [priceFixed, hq]

/-- C8: the receipt reply for the Coffee example is exactly the expected
text (containing the `Items:` header, the item and quantity lines and the
two-decimal total), and in general, for a non-error analysis with a
non-empty all-numeric items list and numeric total, the reply is the
header followed by one indexed line per item and the two-decimal total
line. -/
theorem claim8_receipt_formatting :
    (formatReceiptResponse { error := none, items := some [coffeeItem], total := .num 7 }
        = .ok "🧾 Receipt Analysis:\n\nItems:\n1. Coffee\n   Qty: 2 × $3.50\n\n💰 Total: $7.00" ∧
      containsSub
        "🧾 Receipt Analysis:\n\nItems:\n1. Coffee\n   Qty: 2 × $3.50\n\n💰 Total: $7.00".data
        "Items:".data = true ∧
      containsSub
        "🧾 Receipt Analysis:\n\nItems:\n1. Coffee\n   Qty: 2 × $3.50\n\n💰 Total: $7.00".data
        "1. Coffee\n   Qty: 2 × $3.50".data = true ∧
      containsSub
        "🧾 Receipt Analysis:\n\nItems:\n1. Coffee\n   Qty: 2 × $3.50\n\n💰 Total: $7.00".data
        "$7.00".data = true) ∧
    (∀ (items : List ReceiptItem) (qt : ℚ),
        items ≠ [] →
        (∀ it ∈ items, it.price.isNum = true) →
        formatReceiptResponse { error := none, items := some items, total := .num qt }
          = .ok ("🧾 Receipt Analysis:\n\nItems:\n"
              ++ strConcat (items.enum.map (fun p => itemLine p.1 p.2 (priceFixed p.2)))
              ++ "\n💰 Total: $" ++ toFixed2 qt)) := by
  constructor
  · exact ⟨rfl, by decide, by decide, by decide⟩
  · intro items qt hne hnum
    have hlen : 0 < items.length := List.length_pos.mpr hne
    simp only [formatReceiptResponse]
    rw [if_pos hlen, formatItems_join 0 items hnum]
    rfl

/-- C8 witness: the general formatting statement instantiated at the
Coffee example. -/
theorem claim8_witness :
    ([coffeeItem] ≠ []) ∧ (∀ it ∈ [coffeeItem], it.price.isNum = true) ∧
    formatReceiptResponse { error := none, items := some [coffeeItem], total := .num 7 }
      = .ok ("🧾 Receipt Analysis:\n\nItems:\n"
          ++ strConcat ([coffeeItem].enum.map (fun p => itemLine p.1 p.2 (priceFixed p.2)))
          ++ "\n💰 Total: $" ++ toFixed2 7) :=
  ⟨by decide, by decide,
    claim8_receipt_formatting.2 [coffeeItem] 7 (by decide) (by decide)⟩

/-! ## Claim C10 -/

/-- The item loop throws as soon as some item's price is not a number. -/
theorem formatItems_error_of_bad :
    ∀ (i : Nat) (items : List ReceiptItem),
      (∃ it ∈ items, it.price.isNum = false) →
      formatItems i items = .error ()
  | _, [], h => absurd h (by simp)
  | i, it :: rest, h => by
    cases hp : jsToFixed2 it.price with
    | error e => rw [formatItems, hp]
    | ok p =>
      have hnum : it.price.isNum = true := by
        cases hv : it.price with
        | num q => rfl
        | str s => rw [hv] at hp; exact absurd hp (by simp [jsToFixed2])
        | undef => rw [hv] at hp; exact absurd hp (by simp [jsToFixed2])
      rcases h with ⟨b, hb, hbad⟩
      rcases List.mem_cons.mp hb with rfl | hbrest
      · rw [hnum] at hbad
        cases hbad
      · rw [formatItems, hp,
          formatItems_error_of_bad (i + 1) rest ⟨b, hbrest, hbad⟩]

/-- C10: for a message with one image attachment whose analysis is a
success variant (no error, non-empty items) in which some item's price or
the total is not a number, the itemized reply is never sent — the
formatting throw is caught per-attachment and exactly one generic
trouble-processing notice goes to the sender. -/
theorem claim10_bad_number_trouble_notice (analyze : String → ReceiptData)
    (sender : String) (text : Option String) (a : Attachment)
    (items : List ReceiptItem) (total : JsVal)
    (himg : isImageAttachment a = true)
    (hitems : items ≠ [])
    (hbad : (∃ it ∈ items, it.price.isNum = false) ∨ total.isNum = false)
    (hanalyze : analyze a.path = { error := none, items := some items, total := total }) :
    handleMessage analyze { sender := sender, text := text, attachments := some [a] }
      = [(sender, troubleNotice)] := by
  have hlen : 0 < items.length := List.length_pos.mpr hitems
  have hresp : formatReceiptResponse
      { error := none, items := some items, total := total } = .error () := by
    simp only [formatReceiptResponse]
    rw [if_pos hlen]
    rcases hbad with hbaditem | htot
    · rw [formatItems_error_of_bad 0 items hbaditem]
    · cases hfi : formatItems 0 items with
      | error e => rfl
      | ok body =>
        cases ht : total with
        | num q => rw [ht] at htot; exact absurd htot (by simp [JsVal.isNum])
        | str s => rfl
        | undef => rfl
  rw [handleMessage_single, processReceiptAttachment, if_pos himg, hanalyze]
  simp only [jsTruthyStr, Bool.false_eq_true, if_false, hresp]

/-- C10 witness: a concrete analyzer returning one string-priced item. -/
theorem claim10_witness :
    isImageAttachment receiptImageAttachment = true ∧
    ([badPriceItem] ≠ []) ∧
    (∃ it ∈ [badPriceItem], it.price.isNum = false) ∧
    handleMessage badPriceAnalyzer
        { sender := "a", text := none, attachments := some [receiptImageAttachment] }
      = [("a", troubleNotice)] :=
  ⟨by decide, by decide, ⟨badPriceItem, List.mem_cons_self _ _, rfl⟩,
    claim10_bad_number_trouble_notice badPriceAnalyzer "a" none receiptImageAttachment
      [badPriceItem] (.num 5) (by decide) (by decide)
      (Or.inl ⟨badPriceItem, List.mem_cons_self _ _, rfl⟩) rfl⟩

end Photon

end AgentRepo
